import Mathlib

/-!
Verification of the Yo `Calendar` component (src/component_dev/calendar).

The repository ships the React wrapper `calendar.js`; the selection/day-list
logic lives in `CalendarCore.js`, which is not part of the source tree here,
so those operations are modelled from the specification (see the doc comments
starting with `Modelled from the spec:`).

Dates are represented by their day number (days since 1970-01-01, proleptic
Gregorian calendar); `CivilDate` is the year/month/day view used for ISO
strings, group keys and parsing.
-/

namespace YoCalendar

/-- A Gregorian calendar date: year, 1-based month, 1-based day. -/
structure CivilDate where
  year : Int
  month : Nat
  day : Nat
deriving DecidableEq, Repr

/-- Day number (days since 1970-01-01) of a civil date, via the standard
civil-from-days algorithm for the proleptic Gregorian calendar. -/
def civilToDays (c : CivilDate) : Int :=
  let y : Int := if c.month ≤ 2 then c.year - 1 else c.year
  let era : Int := Int.fdiv y 400
  let yoe : Int := y - era * 400
  let mp : Int := (Int.ofNat c.month + 9) % 12
  let doy : Int := (153 * mp + 2) / 5 + Int.ofNat c.day - 1
  let doe : Int := yoe * 365 + yoe / 4 - yoe / 100 + doy
  era * 146097 + doe - 719468

/-- Civil date of a day number (inverse direction of `civilToDays`). -/
def civilFromDays (z : Int) : CivilDate :=
  let z' : Int := z + 719468
  let era : Int := Int.fdiv z' 146097
  let doe : Int := z' - era * 146097
  let yoe : Int := (doe - doe / 1460 + doe / 36524 - doe / 146096) / 365
  let y : Int := yoe + era * 400
  let doy : Int := doe - (365 * yoe + yoe / 4 - yoe / 100)
  let mp : Int := (5 * doy + 2) / 153
  let d : Int := doy - (153 * mp + 2) / 5 + 1
  let m : Int := if mp < 10 then mp + 3 else mp - 9
  ⟨if m ≤ 2 then y + 1 else y, m.toNat, d.toNat⟩

/-- Zero-padded two-digit rendering of a month or day number. -/
def pad2 (n : Nat) : String :=
  if n < 10 then "0" ++ toString n else toString n

/-- ISO `yyyy-mm-dd` string of a day number. -/
def isoString (dn : Int) : String :=
  let c := civilFromDays dn
  toString c.year ++ "-" ++ pad2 c.month ++ "-" ++ pad2 c.day

/-- The `"<year>年<month>月"` group key of a civil date, as built in
`calendar.js` (`getFullYear()` and `getMonth() + 1`). -/
def groupKeyOfCivil (c : CivilDate) : String :=
  toString c.year ++ "年" ++ toString c.month ++ "月"

/-- Group key of a day number. -/
def groupKeyOfDays (dn : Int) : String :=
  groupKeyOfCivil (civilFromDays dn)

/-- Weekday index of a day number, 0 = Sunday .. 6 = Saturday
(1970-01-01 was a Thursday). -/
def weekdayOfDays (dn : Int) : Int :=
  Int.emod (dn + 4) 7

/-- Split a character list on a separator character. -/
def splitOnChar (sep : Char) : List Char → List (List Char)
  | [] => [[]]
  | c :: cs =>
    let r := splitOnChar sep cs
    if c = sep then [] :: r
    else
      match r with
      | [] => [[c]]
      | h :: t => (c :: h) :: t

/-- Value of a decimal digit character, `none` for a non-digit. -/
def digitVal (c : Char) : Option Nat :=
  if c.isDigit then some (c.toNat - 48) else none

/-- Accumulate a decimal number over a digit list. -/
def digitsToNatAux : List Char → Nat → Option Nat
  | [], acc => some acc
  | c :: cs, acc =>
    match digitVal c with
    | some d => digitsToNatAux cs (acc * 10 + d)
    | none => none

/-- Decimal value of a non-empty digit list, `none` otherwise. -/
def digitsToNat : List Char → Option Nat
  | [] => none
  | l => digitsToNatAux l 0

/-- Parse three separator-delimited decimal fields as a civil date;
`none` models a JavaScript `Invalid Date`. -/
def parseCivilWith (sep : Char) (s : String) : Option CivilDate :=
  match splitOnChar sep s.toList with
  | [ys, ms, ds] =>
    match digitsToNat ys, digitsToNat ms, digitsToNat ds with
    | some y, some m, some d => some ⟨Int.ofNat y, m, d⟩
    | _, _, _ => none
  | _ => none

/-- Parse a `yyyy-mm-dd` date string to its day number. -/
def parseDashDate (s : String) : Option Int :=
  (parseCivilWith '-' s).map civilToDays

/-- Substitute every dash by a slash, as the global dash-to-slash
`selectionStart.replace` call in `componentDidMount` does. -/
def replaceDashSlash (s : String) : String :=
  String.mk (s.toList.map fun c => if c = '-' then '/' else c)

/-- Duration prop: either a number of days from today, or an explicit
`[start, end]` pair of date strings. -/
inductive Duration where
  | num (n : Nat)
  | pair (s e : String)
deriving DecidableEq, Repr

/-- The configuration consumed by the range model (the subset of the
Calendar props that `calendar.js` forwards to `CalendarCore.getData`). -/
structure Config where
  duration : Duration
  selectionStart : String
  selectionEnd : String
  allowSingle : Bool
  allowSelectionBeforeToday : Bool
deriving DecidableEq, Repr

/-- Modelled from the spec: window resolution inside `CalendarCore.getData`
(`CalendarCore.js` is absent from the source tree). A numeric duration `n`
resolves to `[today, today + n]`; an explicit pair is parsed and swapped
when reversed; a pair that fails to parse yields no resolved window. -/
def resolveWindow (today : Int) (d : Duration) : Option (Int × Int) :=
  match d with
  | .num n => some (today, today + (n : Int))
  | .pair s e =>
    match parseDashDate s, parseDashDate e with
    | some a, some b => some (if b < a then (b, a) else (a, b))
    | _, _ => none

/-- Modelled from the spec: the `isRender` flag of a day — inside the
resolved window and, unless `allowSelectionBeforeToday`, not before today. -/
def isRenderFlag (today lo hi : Int) (allowBefore : Bool) (dn : Int) : Bool :=
  (decide (lo ≤ dn) && decide (dn ≤ hi)) && (allowBefore || decide (today ≤ dn))

/-- One calendar day as produced by the day-list computation: day number,
ISO string, weekday index, renderability flag and month group key. -/
structure Day where
  date : Int
  str : String
  week : Int
  isRender : Bool
  groupKey : String
deriving DecidableEq, Repr

/-- Day entry for day number `dn` within resolved window `[lo, hi]`. -/
def mkDay (today lo hi : Int) (allowBefore : Bool) (dn : Int) : Day :=
  { date := dn
    str := isoString dn
    week := weekdayOfDays dn
    isRender := isRenderFlag today lo hi allowBefore dn
    groupKey := groupKeyOfDays dn }

/-- Modelled from the spec: the day-list computation of `CalendarCore.getData`
(`CalendarCore.js` is absent from the source tree). One `Day` per calendar
date from the resolved lower bound through the resolved upper bound. -/
def computeData (today : Int) (cfg : Config) : Option (List Day) :=
  (resolveWindow today cfg.duration).map fun w =>
    (List.range (w.2 - w.1 + 1).toNat).map
      fun i => mkDay today w.1 w.2 cfg.allowSelectionBeforeToday (w.1 + Int.ofNat i)

/-- Modelled from the spec: seeding of the selection from the
`selectionStart` / `selectionEnd` string props; an empty string leaves the
corresponding side unset. -/
def seedSelection (cfg : Config) : Option Int × Option Int :=
  ((if cfg.selectionStart = "" then none else parseDashDate cfg.selectionStart),
   (if cfg.selectionEnd = "" then none else parseDashDate cfg.selectionEnd))

/-- Selection state: optional start and end day numbers. -/
abbrev Selection := Option Int × Option Int

/-- Payload of the `check` change event: the selection as ISO date strings,
empty string for an unset side. -/
structure ChangeEvent where
  selectionStart : String
  selectionEnd : String
deriving DecidableEq, Repr

/-- ISO string of a selection side, empty string when unset. -/
def selToString : Option Int → String
  | none => ""
  | some dn => isoString dn

/-- The change-event payload for a selection. -/
def mkEvent (sel : Selection) : ChangeEvent :=
  ⟨selToString sel.1, selToString sel.2⟩

/-- Modelled from the spec: whether a tapped day is selectable — exactly the
`isRender` flag it got in the day list. -/
def isSelectable (today : Int) (cfg : Config) (dn : Int) : Bool :=
  match resolveWindow today cfg.duration with
  | none => false
  | some w => isRenderFlag today w.1 w.2 cfg.allowSelectionBeforeToday dn

/-- Modelled from the spec: the selection-transition rules of
`CalendarCore.handleChange` (`CalendarCore.js` is absent from the source
tree). Returns the new selection and the list of change events fired. -/
def handleChange (today : Int) (cfg : Config) (sel : Selection) (dn : Int) :
    Selection × List ChangeEvent :=
  if isSelectable today cfg dn then
    let sel2 : Selection :=
      match sel.1, sel.2 with
      | none, _ => if cfg.allowSingle then (some dn, some dn) else (some dn, none)
      | some s, none => if dn < s then (some dn, none) else (some s, some dn)
      | some _, some _ => (some dn, none)
    (sel2, [mkEvent sel2])
  else (sel, [])

/-- The defaultable Calendar props, with the values of `defaultProps` in
`calendar.js` (the function-valued props `onChange`/`renderDate` are
omitted). -/
structure CalendarProps where
  duration : Duration
  extraClass : String
  selectionStart : String
  selectionEnd : String
  selectionStartText : String
  selectionEndText : String
  allowSingle : Bool
  allowSelectionBeforeToday : Bool
deriving DecidableEq, Repr

/-- `defaultProps` of `calendar.js`. -/
def defaultProps : CalendarProps :=
  { duration := .num 90
    extraClass := ""
    selectionStart := ""
    selectionEnd := ""
    selectionStartText := "入店"
    selectionEndText := "离店"
    allowSingle := false
    allowSelectionBeforeToday := false }

/-- The configuration `calendar.js` builds from its props in the constructor
(it forwards duration, the selection strings and the two boolean flags). -/
def propsToConfig (p : CalendarProps) : Config :=
  { duration := p.duration
    selectionStart := p.selectionStart
    selectionEnd := p.selectionEnd
    allowSingle := p.allowSingle
    allowSelectionBeforeToday := p.allowSelectionBeforeToday }

/-- The group key `componentDidMount` of `calendar.js` asks the list to
scroll to: built from `selectionStart` (dashes substituted by slashes, then
parsed) when that prop is a non-empty string, and from today otherwise;
`none` models the `Invalid Date` case of a non-empty unparsable string. -/
def mountScrollGroupKey (today : CivilDate) (selectionStart : String) : Option String :=
  if selectionStart = "" then some (groupKeyOfCivil today)
  else (parseCivilWith '/' (replaceDashSlash selectionStart)).map groupKeyOfCivil

/-- Claim C1: with start set and end empty, tapping a selectable day `d`
replaces the start when `d < start` (the old start is not moved into the
end), and completes the range to `(start, d)` when `d ≥ start`. -/
theorem handleChange_start_only (today : Int) (cfg : Config) (s d : Int)
    (hsel : isSelectable today cfg d = true) :
    (d < s → (handleChange today cfg (some s, none) d).1 = (some d, none)) ∧
    (s ≤ d → (handleChange today cfg (some s, none) d).1 = (some s, some d)) := by
  constructor
  · intro h
    simp [handleChange, hsel, h]
  · intro h
    simp [handleChange, hsel, Int.not_lt.mpr h]

/-- Witness for C1 at concrete inputs. -/
theorem handleChange_start_only_witness :
    (handleChange 0 ⟨.num 90, "", "", false, false⟩ (some 2, none) 1).1 = (some 1, none) ∧
    (handleChange 0 ⟨.num 90, "", "", false, false⟩ (some 2, none) 3).1 = (some 2, some 3) :=
  ⟨(handleChange_start_only 0 ⟨.num 90, "", "", false, false⟩ 2 1 (by decide)).1 (by decide),
   (handleChange_start_only 0 ⟨.num 90, "", "", false, false⟩ 2 3 (by decide)).2 (by decide)⟩

/-- Claim C2: with both sides set, tapping a selectable day `d` restarts the
selection to `(d, empty)`; and tapping `d1`, `d2`, `d3` in sequence from an
empty selection, with `d1 ≤ d2` and `allowSingle = false`, ends with
selection `(d3, empty)`. -/
theorem handleChange_complete_restarts (today : Int) (cfg : Config) (s e d : Int)
    (hsel : isSelectable today cfg d = true) :
    (handleChange today cfg (some s, some e) d).1 = (some d, none) ∧
    (∀ d1 d2 : Int, isSelectable today cfg d1 = true → isSelectable today cfg d2 = true →
      cfg.allowSingle = false → d1 ≤ d2 →
      (handleChange today cfg
        (handleChange today cfg
          (handleChange today cfg (none, none) d1).1 d2).1 d).1 = (some d, none)) := by
  constructor
  · simp [handleChange, hsel]
  · intro d1 d2 h1 h2 hsingle h12
    simp [handleChange, h1, h2, hsel, hsingle, Int.not_lt.mpr h12]

/-- Witness for C2 at concrete inputs. -/
theorem handleChange_complete_restarts_witness :
    (handleChange 0 ⟨.num 90, "", "", false, false⟩ (some 3, some 7) 5).1 = (some 5, none) ∧
    (handleChange 0 ⟨.num 90, "", "", false, false⟩
      (handleChange 0 ⟨.num 90, "", "", false, false⟩
        (handleChange 0 ⟨.num 90, "", "", false, false⟩ (none, none) 3).1 7).1 5).1 =
      (some 5, none) :=
  ⟨(handleChange_complete_restarts 0 ⟨.num 90, "", "", false, false⟩ 3 7 5 (by decide)).1,
   (handleChange_complete_restarts 0 ⟨.num 90, "", "", false, false⟩ 3 7 5 (by decide)).2
      3 7 (by decide) (by decide) rfl (by decide)⟩

/-- Claim C3: from an empty selection, tapping a selectable day `d` sets the
start to `d` and leaves the end empty when `allowSingle = false`; when
`allowSingle = true` the same single tap sets both sides to `d` and fires
exactly one change event. -/
theorem handleChange_empty_sel (today : Int) (cfg : Config) (d : Int)
    (hsel : isSelectable today cfg d = true) :
    (cfg.allowSingle = false →
      (handleChange today cfg (none, none) d).1 = (some d, none)) ∧
    (cfg.allowSingle = true →
      (handleChange today cfg (none, none) d).1 = (some d, some d) ∧
      (handleChange today cfg (none, none) d).2.length = 1) := by
  constructor
  · intro h
    simp [handleChange, hsel, h]
  · intro h
    simp [handleChange, hsel, h]

/-- Witness for C3 at concrete inputs. -/
theorem handleChange_empty_sel_witness :
    (handleChange 0 ⟨.num 90, "", "", false, false⟩ (none, none) 4).1 = (some 4, none) ∧
    ((handleChange 0 ⟨.num 90, "", "", true, false⟩ (none, none) 4).1 = (some 4, some 4) ∧
      (handleChange 0 ⟨.num 90, "", "", true, false⟩ (none, none) 4).2.length = 1) :=
  ⟨(handleChange_empty_sel 0 ⟨.num 90, "", "", false, false⟩ 4 (by decide)).1 rfl,
   (handleChange_empty_sel 0 ⟨.num 90, "", "", true, false⟩ 4 (by decide)).2 rfl⟩

/-- Claim C4: an accepted tap fires exactly one change event carrying the
new selection as ISO date strings, empty string for an unset side; a tap on
a day that is not renderable fires no event and leaves the selection
unchanged. -/
theorem handleChange_event_contract (today : Int) (cfg : Config) (sel : Selection) (d : Int) :
    (isSelectable today cfg d = true →
      (handleChange today cfg sel d).2 =
        [⟨selToString (handleChange today cfg sel d).1.1,
          selToString (handleChange today cfg sel d).1.2⟩]) ∧
    (isSelectable today cfg d = false →
      handleChange today cfg sel d = (sel, [])) := by
  obtain ⟨a, b⟩ := sel
  constructor
  · intro h
    cases a <;> cases b <;> simp [handleChange, h, mkEvent]
  · intro h
    simp [handleChange, h]

/-- Witness for C4 at concrete inputs (day 5 is selectable; day -1, before
today, is not). -/
theorem handleChange_event_contract_witness :
    (handleChange 0 ⟨.num 90, "", "", false, false⟩ (none, none) 5).2 =
      [⟨selToString (handleChange 0 ⟨.num 90, "", "", false, false⟩ (none, none) 5).1.1,
        selToString (handleChange 0 ⟨.num 90, "", "", false, false⟩ (none, none) 5).1.2⟩] ∧
    handleChange 0 ⟨.num 90, "", "", false, false⟩ (none, none) (-1) = ((none, none), []) :=
  ⟨(handleChange_event_contract 0 ⟨.num 90, "", "", false, false⟩ (none, none) 5).1 (by decide),
   (handleChange_event_contract 0 ⟨.num 90, "", "", false, false⟩ (none, none) (-1)).2 (by decide)⟩

/-- Duration-3 scenario configuration (today = 2024-05-10, day number 19853). -/
def scenarioCfg : Config := ⟨.num 3, "", "", false, false⟩

/-- Day list computed in the duration-3 scenario. -/
def scenarioDays : List Day :=
  (List.range 4).map fun i => mkDay 19853 19853 19856 false (19853 + Int.ofNat i)

/-- Pair-duration scenario reaching back before today
(window 2024-05-08 .. 2024-05-12, today = 2024-05-10). -/
def beforeCfg : Config := ⟨.pair "2024-05-08" "2024-05-12", "", "", false, false⟩

/-- Day list computed in the pair-duration scenario. -/
def beforeDays : List Day :=
  (List.range 5).map fun i => mkDay 19853 19851 19855 false (19851 + Int.ofNat i)

/-- Claim C5: for a resolved window `[lo, hi]`, the produced day list has one
entry per calendar date from `lo` through `hi` inclusive (entry `i` carries
date `lo + i`), and consecutive entries differ by exactly one day. -/
theorem computeData_covers_window (today : Int) (cfg : Config) (lo hi : Int) (days : List Day)
    (hw : resolveWindow today cfg.duration = some (lo, hi))
    (hd : computeData today cfg = some days) :
    days.length = (hi - lo + 1).toNat ∧
    (∀ i : Nat, ∀ h : i < days.length, (days.get ⟨i, h⟩).date = lo + Int.ofNat i) ∧
    (∀ i : Nat, ∀ h : i + 1 < days.length,
      (days.get ⟨i + 1, h⟩).date = (days.get ⟨i, Nat.lt_of_succ_lt h⟩).date + 1) := by
  rw [computeData, hw] at hd
  simp only [Option.map_some', Option.some.injEq] at hd
  subst hd
  refine ⟨by simp, ?_, ?_⟩
  · intro i h
    simp [List.get_eq_getElem, mkDay]
  · intro i h
    simp [List.get_eq_getElem, mkDay]
    omega

/-- Witness for C5 in the duration-3 scenario. -/
theorem computeData_covers_window_witness :
    scenarioDays.length = ((19856 : Int) - 19853 + 1).toNat ∧
    (scenarioDays.get ⟨1, by decide⟩).date = 19853 + Int.ofNat 1 ∧
    (scenarioDays.get ⟨2, by decide⟩).date = (scenarioDays.get ⟨1, by decide⟩).date + 1 :=
  ⟨(computeData_covers_window 19853 scenarioCfg 19853 19856 scenarioDays rfl (by decide)).1,
   (computeData_covers_window 19853 scenarioCfg 19853 19856 scenarioDays rfl
      (by decide)).2.1 1 (by decide),
   (computeData_covers_window 19853 scenarioCfg 19853 19856 scenarioDays rfl
      (by decide)).2.2 1 (by decide)⟩

/-- Claim C6: with `allowSelectionBeforeToday = false`, every produced day
whose date is before today has `isRender = false`. -/
theorem computeData_before_today_unrendered (today : Int) (cfg : Config) (days : List Day)
    (hflag : cfg.allowSelectionBeforeToday = false)
    (hd : computeData today cfg = some days) :
    ∀ d ∈ days, d.date < today → d.isRender = false := by
  intro d hmem hlt
  rcases hw : resolveWindow today cfg.duration with _ | w
  · rw [computeData, hw] at hd
    simp at hd
  · rw [computeData, hw] at hd
    simp only [Option.map_some', Option.some.injEq] at hd
    subst hd
    simp only [List.mem_map, List.mem_range] at hmem
    obtain ⟨i, _, rfl⟩ := hmem
    simp only [mkDay] at hlt ⊢
    simp only [Int.ofNat_eq_natCast] at hlt
    simp [isRenderFlag, hflag]
    omega

/-- Witness for C6: in the pair-duration scenario, the day 2024-05-08
(two days before today) is produced but not renderable. -/
theorem computeData_before_today_unrendered_witness :
    (mkDay 19853 19851 19855 false (19851 + Int.ofNat 0)).isRender = false :=
  computeData_before_today_unrendered 19853 beforeCfg beforeDays rfl (by decide)
    (mkDay 19853 19851 19855 false (19851 + Int.ofNat 0)) (by decide) (by decide)

/-- Claim C7: a numeric duration `n` resolves the window to
`[today, today + n]`, so the day list spans exactly `n + 1` days. -/
theorem computeData_num_duration_span (today : Int) (cfg : Config) (n : Nat) (days : List Day)
    (hdur : cfg.duration = .num n)
    (hd : computeData today cfg = some days) :
    resolveWindow today cfg.duration = some (today, today + (n : Int)) ∧
    days.length = n + 1 := by
  have hw : resolveWindow today cfg.duration = some (today, today + (n : Int)) := by
    rw [hdur, resolveWindow]
  refine ⟨hw, ?_⟩
  rw [computeData, hw] at hd
  simp only [Option.map_some', Option.some.injEq] at hd
  subst hd
  simp only [List.length_map, List.length_range]
  omega

/-- Witness for C7: duration 3 with today = 2024-05-10 yields the four days
2024-05-10 through 2024-05-13, all renderable. -/
theorem computeData_num_duration_span_witness :
    (resolveWindow 19853 scenarioCfg.duration = some (19853, 19853 + ((3 : Nat) : Int)) ∧
      scenarioDays.length = 3 + 1) ∧
    scenarioDays.map Day.str = ["2024-05-10", "2024-05-11", "2024-05-12", "2024-05-13"] ∧
    scenarioDays.all Day.isRender = true :=
  ⟨computeData_num_duration_span 19853 scenarioCfg 3 scenarioDays rfl (by decide),
   by decide, by decide⟩

/-- Claim C8: an explicit `[start, end]` pair whose parsed start is after
its parsed end is swapped, so the resolved window is ordered. -/
theorem resolveWindow_swaps_reversed (today : Int) (s e : String) (a b : Int)
    (hs : parseDashDate s = some a) (he : parseDashDate e = some b) (hba : b < a) :
    resolveWindow today (.pair s e) = some (b, a) := by
  simp [resolveWindow, hs, he, hba]

/-- Witness for C8: the reversed pair 2024-06-05 / 2024-06-01 resolves to
the ordered window 2024-06-01 .. 2024-06-05. -/
theorem resolveWindow_swaps_reversed_witness :
    resolveWindow 0 (Duration.pair "2024-06-05" "2024-06-01") = some (19875, 19879) :=
  resolveWindow_swaps_reversed 0 "2024-06-05" "2024-06-01" 19879 19875
    (by decide) (by decide) (by decide)

/-- Claim C9: the group key requested on mount is the `"<year>年<month>月"`
key of the parsed `selectionStart` (dashes substituted by slashes) when that
prop is a non-empty string, and of today otherwise. -/
theorem mountScrollGroupKey_selects_group (today d : CivilDate) (s : String)
    (hne : ¬ s = "") (hp : parseCivilWith '/' (replaceDashSlash s) = some d) :
    mountScrollGroupKey today "" = some (groupKeyOfCivil today) ∧
    mountScrollGroupKey today s = some (groupKeyOfCivil d) := by
  constructor
  · simp [mountScrollGroupKey]
  · simp [mountScrollGroupKey, hne, hp]

/-- Witness for C9 at today = 2024-06-01 and selectionStart 2024-05-11. -/
theorem mountScrollGroupKey_selects_group_witness :
    mountScrollGroupKey ⟨2024, 6, 1⟩ "" = some (groupKeyOfCivil ⟨2024, 6, 1⟩) ∧
    mountScrollGroupKey ⟨2024, 6, 1⟩ "2024-05-11" = some (groupKeyOfCivil ⟨2024, 5, 11⟩) :=
  mountScrollGroupKey_selects_group ⟨2024, 6, 1⟩ ⟨2024, 5, 11⟩ "2024-05-11"
    (by decide) (by decide)

/-- Claim C10: the `defaultProps` of `calendar.js` give duration 90, empty
selection strings and both boolean flags false, so the default window runs
from today through today + 90 days and the seeded selection is empty. -/
theorem defaultProps_behavior (today : Int) :
    defaultProps.duration = Duration.num 90 ∧
    defaultProps.selectionStart = "" ∧
    defaultProps.selectionEnd = "" ∧
    defaultProps.allowSingle = false ∧
    defaultProps.allowSelectionBeforeToday = false ∧
    resolveWindow today (propsToConfig defaultProps).duration = some (today, today + 90) ∧
    seedSelection (propsToConfig defaultProps) = (none, none) := by
  refine ⟨rfl, rfl, rfl, rfl, rfl, ?_, rfl⟩
  simp [resolveWindow, defaultProps, propsToConfig]

end YoCalendar
